import Mathlib

/-!
Shallow embedding of hiddify/lunr.py's transformation-pipeline core
(`src/lunr/pipeline.py` and `src/lunr/languages/__init__.py`) and proofs
about the claims of its natural-language specification.

Modelling conventions:
* Python exceptions are modelled by the inductive `PyError`; a fallible
  Python operation becomes a Lean function returning `Except PyError _`.
* Token text is modelled as `String`; a pipeline stage function (which in
  the source receives `(token, i, tokens)` and returns a string) is
  modelled as `TokenFn`.
* Pipeline stage functions, as *values held in the pipeline stack*, are
  modelled by the structure `Fn`: an identity tag `id` (Python object
  identity: `list.index` on function objects compares by identity) and a
  `label : Option String` (the `label` attribute, absent until
  `register_function` sets it).
* The process-wide dict `Pipeline.registered_functions` is modelled as an
  association list `Registry`, most recent binding first; dict assignment
  is modelled by consing, dict lookup by `find?` on the first component.
* `log.warning` calls are modelled only where a claim is about them: a
  warning is a returned `Option String` / `List String`, never control flow.
-/

/-- Python exceptions raised by the modelled code: `AttributeError` (missing
attribute, e.g. `list.push`), `KeyError` (failed dict lookup, carrying the
missing key), and a plain `Exception` carrying its message string. -/
inductive PyError where
  | attributeError (msg : String)
  | keyError (key : String)
  | exception (msg : String)
deriving DecidableEq, Repr

/-- The message of the `AttributeError` raised by `self._stack.push(fn)` in
`Pipeline.add`: Python lists have no `push` method.  (CPython's exact text is
`'list' object has no attribute 'push'`; quotes are elided here.) -/
def pushErrorMsg : String := "list object has no attribute push"

/-- A pipeline stage as a callable: `fn(token, i, tokens)` returning a string
(`src/lunr/pipeline.py`, `Pipeline.run`).  The empty string models every falsy
return value. -/
abbrev TokenFn := String → Nat → List String → String

/-- The inner loop of `Pipeline.run` for one stage `fn`
(`src/lunr/pipeline.py` lines 92-104): starting from `result = ''`, for each
`i, token` in `enumerate(tokens)` do `result += fn(token, i, tokens)`, and
`break` as soon as `result` is falsy (empty); the accumulated string is the
stage's single entry in `results`. -/
def Pipeline.runStageAcc (fn : TokenFn) (tokens : List String) :
    Nat → String → List String → String
  | _, acc, [] => acc
  | i, acc, t :: rest =>
    let acc' := acc ++ fn t i tokens
    if acc' = "" then acc' else Pipeline.runStageAcc fn tokens (i + 1) acc' rest

/-- `Pipeline.run` exactly as written in `src/lunr/pipeline.py` lines 92-104:
`results = []`; for each `fn` in the stack, run the accumulating inner loop
over the *original* `tokens` (the variable `tokens` is never reassigned) and
append the accumulated string to `results`; return `results`.  The returned
list therefore has one entry per *stage*, not per token. -/
def Pipeline.run (stack : List TokenFn) (tokens : List String) : List String :=
  stack.map (fun fn => Pipeline.runStageAcc fn tokens 0 "" tokens)

/-- Modelled from the spec: the canonical per-token map/filter semantics of
`run` (spec section 4.2): each stage maps every surviving token through `fn`,
drops tokens whose output is empty/falsy, and the stage's output list becomes
the next stage's complete input list; the final list is returned. -/
def Pipeline.runSpec (stack : List TokenFn) (tokens : List String) : List String :=
  stack.foldl
    (fun current fn =>
      current.enum.filterMap
        (fun p => let out := fn p.2 p.1 current; if out = "" then none else some out))
    tokens

/-- The identity stage used as a concrete test input: returns each token's
text unchanged (so it never produces an empty/falsy output on a non-empty
token text). -/
def idStage : TokenFn := fun t _ _ => t

/-- A pipeline stage as a value held in `Pipeline._stack`: `id` models Python
object identity (what `list.index` / `==` compares for function objects) and
`label` models the optional `label` attribute set by
`Pipeline.register_function`. -/
structure Fn where
  id : Nat
  label : Option String
deriving DecidableEq, Repr

/-- The process-wide dict `Pipeline.registered_functions`, as an association
list with the most recent binding first (dict assignment = cons, lookup =
first match). -/
def Registry := List (String × Fn)

/-- Dict lookup `cls.registered_functions[label]`, returning `none` where
Python raises `KeyError`. -/
def Registry.resolve (reg : Registry) (label : String) : Option Fn :=
  (List.find? (fun p => p.1 = label) reg).map (fun p => p.2)

/-- `Pipeline.register_function(fn, label)` (`src/lunr/pipeline.py` lines
23-30): sets `fn.label = label`, stores the function under the label
(overwriting any previous binding), and returns the updated registry together
with the mutated function object.  The `log.warning` on overwrite is
modelled by the returned `Option String`. -/
def Pipeline.register_function (reg : Registry) (fn : Fn) (label : String) :
    Registry × Fn × Option String :=
  let warning :=
    if (Registry.resolve reg label).isSome then
      some "Overwriting existing registered function" else none
  let fn' := { fn with label := some label }
  ((label, fn') :: reg, fn', warning)

/-- `warn_if_function_not_registered` (`src/lunr/pipeline.py` lines 53-59):
`try: return fn.label in self.registered_functions except AttributeError:
log.warning(...)`.  The warning fires *only* when `fn` has no `label`
attribute at all; a labelled-but-unregistered function returns `False`
silently.  The emitted warning is the returned `Option String`. -/
def Pipeline.warn_if_function_not_registered (fn : Fn) : Option String :=
  match fn.label with
  | some _ => none
  | none => some "Function is not registered with pipeline."

/-- The expression `self._stack.push(fn)` in `Pipeline.add`
(`src/lunr/pipeline.py` line 51): Python's `list` type has no `push` method,
so evaluating the attribute access raises `AttributeError` and nothing is
appended. -/
def listPush (_stack : List Fn) (_fn : Fn) : Except PyError (List Fn) :=
  .error (.attributeError pushErrorMsg)

/-- `Pipeline.add(*args)` (`src/lunr/pipeline.py` lines 47-51): for each
argument, call `warn_if_function_not_registered` (log only) and then
`self._stack.push(fn)` — which raises `AttributeError` on the first
argument, so a call with at least one argument always fails and the stack is
never extended. -/
def Pipeline.add (stack : List Fn) (args : List Fn) : Except PyError (List Fn) :=
  match args with
  | [] => .ok stack
  | fn :: rest => do
    let stack' ← listPush stack fn
    Pipeline.add stack' rest

/-- The warnings `Pipeline.add` emits before it raises: the first argument is
warned about (when unlabelled) before `push` raises `AttributeError`. -/
def Pipeline.addEmittedWarnings (args : List Fn) : List String :=
  match args with
  | [] => []
  | fn :: _ => (Pipeline.warn_if_function_not_registered fn).toList

/-- The constant message of the exception raised by `Pipeline.load` on an
unregistered label: the source builds it as
`'Cannot load unregistered function '.format(fn_name)`, and since the string
contains no placeholder, `format` returns it unchanged — the offending label
never appears in the message. -/
def loadErrorMsg : String := "Cannot load unregistered function "

/-- Whether the character sequence of `needle` occurs inside `haystack`:
used to state that an error message does (not) name an offending label. -/
def containsSubstring (haystack needle : String) : Bool :=
  decide (needle.toList <:+: haystack.toList)

/-- The loop of `Pipeline.load` (`src/lunr/pipeline.py` lines 32-45): for
each label, look it up in `registered_functions`; on `KeyError` raise a plain
`Exception` with the constant `loadErrorMsg`; otherwise `pipeline.add(fn)`
(which in turn raises `AttributeError` via `list.push`). -/
def Pipeline.loadAux (reg : Registry) (stack : List Fn) :
    List String → Except PyError (List Fn)
  | [] => .ok stack
  | fnName :: rest =>
    match Registry.resolve reg fnName with
    | none => .error (.exception loadErrorMsg)
    | some fn => do
      let stack' ← Pipeline.add stack [fn]
      Pipeline.loadAux reg stack' rest

/-- `Pipeline.load(serialised)`: starts from a fresh empty pipeline and runs
the resolution loop; returns the pipeline only if the whole loop succeeds, so
no partially constructed pipeline is ever visible to the caller. -/
def Pipeline.load (reg : Registry) (serialised : List String) :
    Except PyError (List Fn) :=
  Pipeline.loadAux reg [] serialised

/-- Python `list.insert(i, x)`: inserts `x` before position `i`, clamping an
out-of-range `i` to an append. -/
def pyInsert {α : Type} (l : List α) (i : Nat) (x : α) : List α :=
  match i with
  | 0 => x :: l
  | i + 1 =>
    match l with
    | [] => [x]
    | y :: ys => y :: pyInsert ys i x

/-- `Pipeline.before(existing_fn, new_fn)` (`src/lunr/pipeline.py` lines
73-83): warn about `new_fn` (log only), find `existing_fn` with
`self._stack.index` (first position comparing equal, i.e. identical for
function objects), and `insert` `new_fn` at that position; on `ValueError`
(absent) raise `Exception('Cannot find existing_fn')`, leaving the stack
unchanged. -/
def Pipeline.before (stack : List Fn) (existing_fn new_fn : Fn) :
    Except PyError (List Fn) :=
  match stack.findIdx? (fun g => g = existing_fn) with
  | some i => .ok (pyInsert stack i new_fn)
  | none => .error (.exception "Cannot find existing_fn")

/-- `Pipeline.after(existing_fn, new_fn)` (`src/lunr/pipeline.py` lines
61-71): same as `before` but inserting at the found position plus one. -/
def Pipeline.after (stack : List Fn) (existing_fn new_fn : Fn) :
    Except PyError (List Fn) :=
  match stack.findIdx? (fun g => g = existing_fn) with
  | some i => .ok (pyInsert stack (i + 1) new_fn)
  | none => .error (.exception "Cannot find existing_fn")

/-- `Pipeline.to_json` (`src/lunr/pipeline.py` lines 116-117):
`[fn.label for fn in self._stack]`; accessing `fn.label` on a function that
was never registered raises `AttributeError`. -/
def Pipeline.to_json (stack : List Fn) : Except PyError (List String) :=
  stack.mapM (fun fn =>
    match fn.label with
    | some l => Except.ok l
    | none => Except.error (.attributeError "function object has no attribute label"))

/-- The SUPPORTED_LANGUAGES dict of src/lunr/languages/__init__.py (ISO-639-1
code to SnowballStemmer language name), as an association list in source
order.  Note the first entry: "fa" maps to "arabic". -/
def SUPPORTED_LANGUAGES : List (String × String) :=
  [("fa", "arabic"), ("ar", "arabic"), ("da", "danish"), ("nl", "dutch"),
   ("en", "english"), ("fi", "finnish"), ("fr", "french"), ("de", "german"),
   ("hu", "hungarian"), ("it", "italian"), ("no", "norwegian"),
   ("pt", "portuguese"), ("ro", "romanian"), ("ru", "russian"),
   ("es", "spanish"), ("sv", "swedish")]

/-- Dict lookup SUPPORTED_LANGUAGES[language]; none models the KeyError. -/
def supportedLanguageFor (language : String) : Option String :=
  (List.find? (fun p => p.1 = language) SUPPORTED_LANGUAGES).map (fun p => p.2)

/-- The hard-coded Persian text of src/lunr/languages/__init__.py line 34:
the string that is split on single spaces to form persian_stopwords.
Copied verbatim from the source. -/
def persianStopwordsSource : String :=
  "و در به از كه مي اين است را با هاي براي آن يك شود شده خود ها كرد شد اي تا كند بر بود گفت نيز وي هم كنند دارد ما كرده يا اما بايد دو اند هر خواهد او مورد آنها باشد ديگر مردم نمي بين پيش پس اگر همه صورت يكي هستند بي من دهد هزار نيست استفاده داد داشته راه داشت چه همچنين كردند داده بوده دارند همين ميليون سوي شوند بيشتر بسيار روي گرفته هايي تواند اول نام هيچ چند جديد بيش شدن كردن كنيم نشان حتي اينكه ولی توسط چنين برخي نه ديروز دوم درباره بعد مختلف گيرد شما گفته آنان بار طور گرفت دهند گذاري بسياري طي بودند ميليارد بدون تمام كل تر  براساس شدند ترين امروز باشند ندارد چون قابل گويد ديگري همان خواهند قبل آمده اكنون تحت طريق گيري جاي هنوز چرا البته كنيد سازي سوم كنم بلكه زير توانند ضمن فقط بودن حق آيد وقتي اش يابد نخستين مقابل خدمات امسال تاكنون مانند تازه آورد فكر آنچه نخست نشده شايد چهار جريان پنج ساخته زيرا نزديك برداري كسي ريزي رفت گردد مثل آمد ام بهترين دانست كمتر دادن تمامي جلوگيري بيشتري ايم ناشي چيزي آنكه بالا بنابراين ايشان بعضي دادند داشتند برخوردار نخواهد هنگام نبايد غير نبود ديده وگو داريم چگونه بندي خواست فوق ده نوعي هستيم ديگران همچنان سراسر ندارند گروهي سعي روزهاي آنجا يكديگر كردم بيست بروز سپس رفته آورده نمايد باشيم گويند زياد خويش همواره گذاشته شش  نداشته شناسي خواهيم آباد داشتن نظير همچون باره نكرده شان سابق هفت دانند جايي بی جز زیرِ رویِ سریِ تویِ جلویِ پیشِ عقبِ بالایِ خارجِ وسطِ بیرونِ سویِ کنارِ پاعینِ نزدِ نزدیکِ دنبالِ حدودِ برابرِ طبقِ مانندِ ضدِّ هنگامِ برایِ مثلِ بارة اثرِ تولِ علّتِ سمتِ عنوانِ قصدِ روب جدا کی که چیست هست کجا کجاست کَی چطور کدام آیا مگر چندین یک چیزی دیگر کسی بعری هیچ چیز جا کس هرگز یا تنها بلکه خیاه بله بلی آره آری مرسی البتّه لطفاً ّه انکه وقتیکه همین پیش مدّتی هنگامی مان تان"

/-- persian_stopwords of src/lunr/languages/__init__.py line 34: the set
comprehension over source.split(" ").  Python set membership is modelled by
a duplicate-free list (dedup keeps first occurrences); note the source text
contains two double spaces, so the split also contains the empty string. -/
def persian_stopwords : List String :=
  (persianStopwordsSource.splitOn " ").dedup

/-- The set of characters occurring in a list of stop words:
`{c for word in stopwords for c in word}` in
`_get_stopwords_and_word_characters`.  Characters are modelled as
one-character strings, because `get_nltk_builder` later mixes them with the
two-character marker string `\w` in one Python set. -/
def wordCharactersOf (stopwords : List String) : Finset String :=
  ((stopwords.map (fun w => w.toList.map Char.toString)).flatten).toFinset

/-- `_get_stopwords_and_word_characters(language)`
(`src/lunr/languages/__init__.py` lines 42-52), with the external corpus
provider (`nltk.corpus.stopwords.words`) passed in as the opaque `corpus`
argument: look the language up in `SUPPORTED_LANGUAGES` (a `KeyError` if
absent), fetch the corpus stop words for the verbose name, then — for the
language code `fa` only — *replace* them wholesale with the hard-coded
`persian_stopwords`; finally derive the word-character set from whichever
stop-word list survived.  (`nltk.download` is an idempotent fetch with no
bearing on the returned value and is not modelled.) -/
def _get_stopwords_and_word_characters (corpus : String → List String)
    (language : String) : Except PyError (List String × Finset String) :=
  match supportedLanguageFor language with
  | none => .error (.keyError language)
  | some verbose_language =>
    let stopwords := corpus verbose_language
    let stopwords := if language = "fa" then persian_stopwords else stopwords
    .ok (stopwords, wordCharactersOf stopwords)

/-- Modelled from the spec: `get_language_stemmer` lives in
`lunr/languages/stemmer.py`, which is not part of the shown source; per the
spec it resolves the Snowball stemming capability for the verbose language
name that `SUPPORTED_LANGUAGES` maps the two-letter code to.  The capability
is identified here by that verbose name. -/
def get_language_stemmer (language : String) : Except PyError String :=
  match supportedLanguageFor language with
  | none => .error (.keyError language)
  | some verbose_language => .ok verbose_language

/-- Modelled from the spec: `lunr.stemmer.stemmer`, the pre-registered
default English stemmer (not part of the shown source), as an opaque
function value. -/
def lunr_stemmer : Fn := { id := 1000, label := some "stemmer" }

/-- Modelled from the spec: `lunr.stop_word_filter.stop_word_filter`, the
pre-registered default English stop-word filter (not part of the shown
source), as an opaque function value. -/
def stop_word_filter : Fn := { id := 1001, label := some "stopWordFilter" }

/-- The per-language gathering loop of `get_nltk_builder`
(`src/lunr/languages/__init__.py` lines 70-79): for `en`, append Lunr's
default stemmer and stop-word filter and add the generic marker `\w` to the
word-character set; for any other language, fetch its stop words and word
characters (`KeyError` on an unsupported code), resolve
`registered_functions["stemmer-<language>"]` (`KeyError` if absent), and
build a stop-word filter from the stop words via the opaque
`generate_stop_word_filter`.  Returns the stemmers and stop-word filters in
language order and the union of the word-character sets; this phase touches
no builder and performs no registration. -/
def gatherLanguageData (corpus : String → List String)
    (generate_stop_word_filter : String → List String → Fn) (reg : Registry) :
    List String → Except PyError (List Fn × List Fn × Finset String)
  | [] => .ok ([], [], ∅)
  | language :: rest =>
    if language = "en" then do
      let (stemmers, filters, wordChars) ←
        gatherLanguageData corpus generate_stop_word_filter reg rest
      .ok (lunr_stemmer :: stemmers, stop_word_filter :: filters,
           insert "\\w" wordChars)
    else
      match _get_stopwords_and_word_characters corpus language with
      | .error e => .error e
      | .ok (stopwords, word_characters) =>
        match Registry.resolve reg ("stemmer-" ++ language) with
        | none => .error (.keyError ("stemmer-" ++ language))
        | some stemmer => do
          let (stemmers, filters, wordChars) ←
            gatherLanguageData corpus generate_stop_word_filter reg rest
          .ok (stemmer :: stemmers,
               generate_stop_word_filter language stopwords :: filters,
               word_characters ∪ wordChars)

/-- Modelled from the spec: the builder collaborator (`lunr.builder.Builder`,
not part of the shown source) exposes two pipeline slots, one for indexing
and one for queries, both starting empty on construction. -/
structure Builder where
  pipeline : List Fn
  search_pipeline : List Fn
deriving DecidableEq, Repr

/-- `"".join(sorted(all_word_characters))` in `get_nltk_builder`: the merged
word-character set rendered as one sorted, duplicate-free character class. -/
def wordCharClass (wordChars : Finset String) : String :=
  String.join (wordChars.sort (· ≤ ·))

/-- The label `get_nltk_builder` registers the merged trimmer under:
`"lunr-multi-trimmer-{}".format("-".join(languages))` — the languages joined
in the order they were passed, not sorted. -/
def multiTrimmerLabel (languages : List String) : String :=
  "lunr-multi-trimmer-" ++ String.intercalate "-" languages

/-- `get_nltk_builder(languages)` (`src/lunr/languages/__init__.py` lines
65-93), with the opaque external capabilities passed in: `generate_trimmer`
(regex trimmer factory) and `generate_stop_word_filter`.  After the
gathering loop it constructs a fresh `Builder`, builds the merged trimmer
from the sorted joined character class, registers it under
`multiTrimmerLabel languages` (a registry mutation that persists even if a
later step raises), resets the indexing pipeline, then `add`s the trimmer,
the stop-word filters and the stemmers one by one to `builder.pipeline` and
the stemmers to `builder.search_pipeline` (which is never reset).  Returns
the final registry together with the builder or the exception raised. -/
def get_nltk_builder (generate_trimmer : String → Fn)
    (generate_stop_word_filter : String → List String → Fn)
    (corpus : String → List String) (reg : Registry) (languages : List String) :
    Registry × Except PyError Builder :=
  match gatherLanguageData corpus generate_stop_word_filter reg languages with
  | .error e => (reg, .error e)
  | .ok (all_stemmers, all_stopwords_filters, all_word_characters) =>
    let builder : Builder := { pipeline := [], search_pipeline := [] }
    let multi_trimmer := generate_trimmer (wordCharClass all_word_characters)
    let (reg', multi_trimmer', _) :=
      Pipeline.register_function reg multi_trimmer (multiTrimmerLabel languages)
    let builder := { builder with pipeline := [] }
    match Pipeline.add builder.pipeline
        (multi_trimmer' :: (all_stopwords_filters ++ all_stemmers)) with
    | .error e => (reg', .error e)
    | .ok indexing =>
      match Pipeline.add builder.search_pipeline all_stemmers with
      | .error e => (reg', .error e)
      | .ok query =>
        (reg', .ok { builder with pipeline := indexing, search_pipeline := query })

/-! Concrete fixtures used by the theorems below: four distinct stage
function objects, a registry holding one of them, an unregistered labelled
function, and trivial instances of the opaque external capabilities. -/

/-- A registered stage function object used as a concrete fixture. -/
def fnA : Fn := { id := 1, label := some "fn-a" }

/-- A registry in which `fnA` is registered under its label. -/
def regA : Registry := [("fn-a", fnA)]

/-- A function object carrying a label that is bound in no registry. -/
def fnUnreg : Fn := { id := 5, label := some "unregistered-label" }

/-- Distinct stage function objects for the positional-edit fixtures. -/
def f1 : Fn := { id := 11, label := some "f1" }

/-- Second positional-edit fixture. -/
def f2 : Fn := { id := 12, label := some "f2" }

/-- Third positional-edit fixture. -/
def f3 : Fn := { id := 13, label := some "f3" }

/-- Fourth positional-edit fixture (the function inserted). -/
def f4 : Fn := { id := 14, label := some "f4" }

/-- A concrete trimmer factory standing in for `generate_trimmer`. -/
def genTrim0 : String → Fn := fun _ => { id := 7, label := none }

/-- A concrete stop-word-filter factory standing in for
`generate_stop_word_filter`. -/
def genSW0 : String → List String → Fn := fun _ _ => { id := 8, label := none }

/-- A concrete corpus provider returning no stop words for any language. -/
def corpus0 : String → List String := fun _ => []

/-- A registry holding a stemmer registered under `stemmer-fr`. -/
def regFr : Registry := [("stemmer-fr", { id := 42, label := some "stemmer-fr" })]

/-! Helper lemmas shared by the theorems (list search and insertion). -/

/-- `list.index` on `l₁ ++ e :: l₂` finds position `l₁.length` when `e` does
not occur in `l₁`. -/
theorem findIdx_append_notMem (e : Fn) :
    ∀ (l₁ l₂ : List Fn), e ∉ l₁ →
      (l₁ ++ e :: l₂).findIdx? (fun g => g = e) = some l₁.length := by
  intro l₁
  induction l₁ with
  | nil => intro l₂ _; simp [List.findIdx?_cons]
  | cons a as ih =>
    intro l₂ h
    have ha : ¬a = e := fun hh => h (by simp [hh])
    have hm : e ∉ as := fun hm => h (List.mem_cons_of_mem _ hm)
    simp [List.findIdx?_cons, ha, ih _ hm]

/-- `list.index` fails (Python `ValueError`) when the element is absent. -/
theorem findIdx_none_of_notMem (e : Fn) :
    ∀ p : List Fn, e ∉ p → p.findIdx? (fun g => g = e) = none := by
  intro p
  induction p with
  | nil => intro _; rfl
  | cons a as ih =>
    intro h
    have ha : ¬a = e := fun hh => h (by simp [hh])
    have hm : e ∉ as := fun hm => h (List.mem_cons_of_mem _ hm)
    simp [List.findIdx?_cons, ha, ih hm]

/-- `list.insert` at position `l₁.length` of `l₁ ++ l₂` puts the new element
between the two parts. -/
theorem pyInsert_at_length {α : Type} (x : α) :
    ∀ (l₁ l₂ : List α), pyInsert (l₁ ++ l₂) l₁.length x = l₁ ++ x :: l₂ := by
  intro l₁
  induction l₁ with
  | nil => intro l₂; simp [pyInsert]
  | cons a as ih => intro l₂; simp [pyInsert, ih]

/-- `list.insert` at position `l₁.length + 1` of `l₁ ++ e :: l₂` puts the new
element immediately after `e`. -/
theorem pyInsert_after {α : Type} (x e : α) (l₁ l₂ : List α) :
    pyInsert (l₁ ++ e :: l₂) (l₁.length + 1) x = l₁ ++ e :: x :: l₂ := by
  have h := pyInsert_at_length x (l₁ ++ [e]) l₂
  simpa using h

/-- C1: the claim says `Pipeline.run` executes the stages as a per-token
map/filter chain and returns the final token sequence.  The code instead
concatenates every stage's outputs into a single string per stage, always
computed from the *original* input sequence, and returns one entry per
stage: on two identity stages over the tokens `a`, `b`, the source `run`
returns `["ab", "ab"]`, while the spec's chain (`runSpec`) returns
`["a", "b"]`. -/
theorem claimC1_run_concatenates_stage_output :
    Pipeline.run [idStage, idStage] ["a", "b"] = ["ab", "ab"] ∧
    Pipeline.runSpec [idStage, idStage] ["a", "b"] = ["a", "b"] :=
  ⟨rfl, rfl⟩

/-- C2: the claim says a pipeline whose stages never return a falsy output
preserves the length and order of the token sequence.  In the code the
result of `run` has one entry per *stage*: a single identity stage (which
returns every token's non-empty text unchanged, so never drops) over the two
tokens `a`, `b` yields the one-element result `["ab"]`, length 1, against
input length 2. -/
theorem claimC2_run_length_counts_stages :
    Pipeline.run [idStage] ["a", "b"] = ["ab"] ∧
    idStage "a" 0 ["a", "b"] = "a" ∧
    idStage "b" 1 ["a", "b"] = "b" ∧
    (Pipeline.run [idStage] ["a", "b"]).length = 1 ∧
    (["a", "b"] : List String).length = 2 :=
  ⟨rfl, rfl, rfl, rfl, rfl⟩

/-- C3: the claim says `load(p.to_labels())` round-trips every pipeline built
from registered functions.  For the one-stage pipeline `[fnA]` with `fnA`
registered under `fn-a`, serialization succeeds (`to_json` = `["fn-a"]`) and
the label resolves, but `load` then calls `pipeline.add`, whose
`self._stack.push(fn)` raises `AttributeError` (lists have no `push`), so no
pipeline is ever produced and the round-trip fails. -/
theorem claimC3_roundtrip_load_raises :
    Pipeline.to_json [fnA] = .ok ["fn-a"] ∧
    Registry.resolve regA "fn-a" = some fnA ∧
    Pipeline.load regA ["fn-a"] = .error (.attributeError pushErrorMsg) :=
  ⟨rfl, rfl, rfl⟩

/-- C4: the claim says `add(*fns)` appends each function and warns about each
function whose label is not in the registry.  In the code `add` calls
`self._stack.push(fn)`, which raises `AttributeError` before anything is
appended; moreover `warn_if_function_not_registered` returns silently for a
function that *has* a label merely absent from the registry (here
`fnUnreg`, whose label resolves to nothing), so no warning is emitted
either. -/
theorem claimC4_add_raises_attribute_error :
    Pipeline.add [] [fnUnreg] = .error (.attributeError pushErrorMsg) ∧
    Registry.resolve ([] : Registry) "unregistered-label" = none ∧
    Pipeline.warn_if_function_not_registered fnUnreg = none ∧
    Pipeline.addEmittedWarnings [fnUnreg] = [] :=
  ⟨rfl, rfl, rfl, rfl⟩

/-- C5: the claim says `load` fails on an unregistered label with an error
naming the offending label.  The code raises a plain exception whose message
is built by `'Cannot load unregistered function '.format(fn_name)`; the
format string has no placeholder, so the message is the constant
`loadErrorMsg` and contains no occurrence of the label `stemmer-xx`. -/
theorem claimC5_load_message_omits_label :
    Pipeline.load [] ["stemmer-xx"] = .error (.exception loadErrorMsg) ∧
    loadErrorMsg = "Cannot load unregistered function " ∧
    containsSubstring loadErrorMsg "stemmer-xx" = false :=
  ⟨rfl, rfl, by decide⟩

/-- C6: `before`/`after` locate `existing_fn` at its first position in the
stack (comparison by object identity) and insert `new_fn` immediately
before, respectively after, it; when `existing_fn` is absent both fail with
the `Cannot find existing_fn` exception and — the operation returning only
the error — the stack is left unchanged. -/
theorem claimC6_before_after_insert (l₁ l₂ p : List Fn) (e n : Fn)
    (h1 : e ∉ l₁) (h2 : e ∉ p) :
    Pipeline.before (l₁ ++ e :: l₂) e n = .ok (l₁ ++ n :: e :: l₂) ∧
    Pipeline.after (l₁ ++ e :: l₂) e n = .ok (l₁ ++ e :: n :: l₂) ∧
    Pipeline.before p e n = .error (.exception "Cannot find existing_fn") ∧
    Pipeline.after p e n = .error (.exception "Cannot find existing_fn") := by
  refine ⟨?_, ?_, ?_, ?_⟩
  · unfold Pipeline.before
    rw [findIdx_append_notMem e l₁ l₂ h1]
    show Except.ok (pyInsert (l₁ ++ e :: l₂) l₁.length n) = _
    rw [pyInsert_at_length]
  · unfold Pipeline.after
    rw [findIdx_append_notMem e l₁ l₂ h1]
    show Except.ok (pyInsert (l₁ ++ e :: l₂) (l₁.length + 1) n) = _
    rw [pyInsert_after]
  · unfold Pipeline.before
    rw [findIdx_none_of_notMem e p h2]
  · unfold Pipeline.after
    rw [findIdx_none_of_notMem e p h2]

/-- Witness for C6 at the concrete pipeline `[f1, f2, f3]` and the pipeline
`[f1, f3]` from which `f2` is absent. -/
theorem claimC6_witness :
    Pipeline.before [f1, f2, f3] f2 f4 = .ok [f1, f4, f2, f3] ∧
    Pipeline.after [f1, f2, f3] f2 f4 = .ok [f1, f2, f4, f3] ∧
    Pipeline.before [f1, f3] f2 f4 = .error (.exception "Cannot find existing_fn") ∧
    Pipeline.after [f1, f3] f2 f4 = .error (.exception "Cannot find existing_fn") :=
  claimC6_before_after_insert [f1] [f3] [f1, f3] f2 f4 (by decide) (by decide)

/-- C7: the claim says the bundler resets the indexing pipeline and fills it
with trimmer, stop-word filters and stemmers, and fills the query pipeline
with the stemmers.  In the code every one of those `builder.pipeline.add`
calls goes through `Pipeline.add`, whose `self._stack.push(fn)` raises
`AttributeError` on the very first stage (the merged trimmer), so for any
language list — here `["en"]` — `get_nltk_builder` raises and no builder
with populated pipelines is ever returned; only the trimmer registration
(which precedes the adds) has taken effect. -/
theorem claimC7_builder_add_raises :
    ∀ (generate_trimmer : String → Fn)
      (generate_stop_word_filter : String → List String → Fn)
      (corpus : String → List String) (reg : Registry),
      get_nltk_builder generate_trimmer generate_stop_word_filter corpus reg
          ["en"] =
        ((multiTrimmerLabel ["en"],
          { generate_trimmer (wordCharClass (insert "\\w" ∅)) with
              label := some (multiTrimmerLabel ["en"]) }) :: reg,
         .error (.attributeError pushErrorMsg)) :=
  fun _ _ _ _ => rfl

/-- C8 counterexample: the trimmer label is *not* derived from the sorted
language list — `["fr", "en"]` and `["en", "fr"]` denote the same set of
languages, yet `get_nltk_builder` registers the merged trimmer under
`lunr-multi-trimmer-fr-en` in the one case and `lunr-multi-trimmer-en-fr` in
the other. -/
theorem claimC8_counterexample :
    (get_nltk_builder genTrim0 genSW0 corpus0 regFr ["fr", "en"]).1.head?.map
        Prod.fst = some "lunr-multi-trimmer-fr-en" ∧
    (get_nltk_builder genTrim0 genSW0 corpus0 regFr ["en", "fr"]).1.head?.map
        Prod.fst = some "lunr-multi-trimmer-en-fr" ∧
    (["fr", "en"] : List String).toFinset = (["en", "fr"] : List String).toFinset ∧
    (("lunr-multi-trimmer-fr-en" : String) == "lunr-multi-trimmer-en-fr") = false :=
  ⟨rfl, rfl, by decide, by decide⟩

/-- C8 (amended): whenever the per-language gathering succeeds, the bundler
builds a single merged trimmer from the sorted, duplicate-free join of all
word-character sets and registers it under
`lunr-multi-trimmer-<languages joined by - in the order given>` — so two
requests for the same language *sequence* are keyed to the same label, while
the same set in a different order is not. -/
theorem claimC8_trimmer_registration (generate_trimmer : String → Fn)
    (generate_stop_word_filter : String → List String → Fn)
    (corpus : String → List String) (reg : Registry) (languages : List String)
    (stemmers filters : List Fn) (wordChars : Finset String)
    (h : gatherLanguageData corpus generate_stop_word_filter reg languages =
      .ok (stemmers, filters, wordChars)) :
    (get_nltk_builder generate_trimmer generate_stop_word_filter corpus reg
        languages).1 =
      (multiTrimmerLabel languages,
        { generate_trimmer (wordCharClass wordChars) with
            label := some (multiTrimmerLabel languages) }) :: reg ∧
    multiTrimmerLabel languages =
      "lunr-multi-trimmer-" ++ String.intercalate "-" languages ∧
    wordCharClass wordChars = String.join (wordChars.sort (· ≤ ·)) ∧
    (wordChars.sort (· ≤ ·)).Sorted (· ≤ ·) ∧
    (wordChars.sort (· ≤ ·)).Nodup := by
  refine ⟨?_, rfl, rfl, Finset.sort_sorted _ _, Finset.sort_nodup _ _⟩
  unfold get_nltk_builder
  rw [h]
  rfl

/-- Witness for C8 (amended) at `languages = ["en"]`, whose gathering phase
yields the default stemmer, the default stop-word filter and the
word-character set containing only the generic marker. -/
theorem claimC8_witness :
    (get_nltk_builder genTrim0 genSW0 corpus0 [] ["en"]).1 =
      (multiTrimmerLabel ["en"],
        { genTrim0 (wordCharClass (insert "\\w" ∅)) with
            label := some (multiTrimmerLabel ["en"]) }) :: ([] : Registry) ∧
    multiTrimmerLabel ["en"] =
      "lunr-multi-trimmer-" ++ String.intercalate "-" ["en"] ∧
    wordCharClass (insert "\\w" ∅) =
      String.join ((insert "\\w" ∅ : Finset String).sort (· ≤ ·)) ∧
    ((insert "\\w" ∅ : Finset String).sort (· ≤ ·)).Sorted (· ≤ ·) ∧
    ((insert "\\w" ∅ : Finset String).sort (· ≤ ·)).Nodup :=
  claimC8_trimmer_registration genTrim0 genSW0 corpus0 [] ["en"]
    [lunr_stemmer] [stop_word_filter] (insert "\\w" ∅) rfl

/-- C9: requesting a language outside `SUPPORTED_LANGUAGES` — here `zz` in
`["en", "zz"]` — makes the gathering loop raise the dict lookup error
(`KeyError` on `zz`, the code's realization of the spec's
`UnsupportedLanguageError`) for any corpus, factory and registry, and
`get_nltk_builder` propagates it with the registry unchanged and no builder
ever constructed: the builder object is only created after the loop, so no
builder state is mutated. -/
theorem claimC9_unsupported_language_fails_early :
    ∀ (generate_trimmer : String → Fn)
      (generate_stop_word_filter : String → List String → Fn)
      (corpus : String → List String) (reg : Registry),
      supportedLanguageFor "zz" = none ∧
      gatherLanguageData corpus generate_stop_word_filter reg ["en", "zz"] =
        .error (.keyError "zz") ∧
      get_nltk_builder generate_trimmer generate_stop_word_filter corpus reg
          ["en", "zz"] = (reg, .error (.keyError "zz")) :=
  fun _ _ _ _ => ⟨rfl, rfl, rfl⟩

/-- C10: for the language code `fa`, `_get_stopwords_and_word_characters`
discards whatever the external corpus returns for the mapped verbose
language and uses the hard-coded Persian stop-word list, deriving the
word-character set from it — the result is the same for every corpus
provider — while `SUPPORTED_LANGUAGES` maps `fa` to `arabic`, so the
stemming capability resolved for `fa` is the `arabic` Snowball one. -/
theorem claimC10_persian_override :
    ∀ corpus : String → List String,
      _get_stopwords_and_word_characters corpus "fa" =
        .ok (persian_stopwords, wordCharactersOf persian_stopwords) ∧
      supportedLanguageFor "fa" = some "arabic" ∧
      get_language_stemmer "fa" = .ok "arabic" :=
  fun _ => ⟨rfl, rfl, rfl⟩
